import Mathlib

/-
Verification of the SVD workspace-management layer in src/src/GSL/lapack-aux.c
(functions svd_l_Rdd, svd_l_R, svd_l_C).

Each C function is embedded shallowly as the trace of its observable events:
allocations (with element counts and element types), the defensive memcpy of
the caller input, the two LAPACK kernel calls (with every pointer argument,
the leading dimensions and the workspace length), the frees, and the final
return code.  The behaviour of the external kernel and of malloc is supplied
by an environment: `ans` is the workspace-size recommendation the size-query
call writes into the local slot, `res1` and `res2` are the statuses the two
kernel calls write into the local `int res`, and `allocOk i` says whether the
i-th malloc of the invocation succeeds.
-/

namespace LapackAux

/-- Buffer identities appearing in the three SVD wrappers: `ap` is the caller
input matrix data, `sp`, `up`, `vp` the caller output buffers; `B`, `iwk`,
`workv`, `work`, `rwork` are buffers malloced inside a call; `ansSlot` is the
local `double ans` one-element slot and `resSlot` the local `int res` slot. -/
inductive Ptr
  | ap
  | B
  | iwk
  | workv
  | work
  | rwork
  | sp
  | up
  | vp
  | ansSlot
  | resSlot
deriving DecidableEq

/-- Element type of an allocation: `malloc(c*sizeof(int))` versus
`malloc(c*sizeof(double))`. -/
inductive CTy
  | tint
  | tdouble
deriving DecidableEq

/-- One LAPACK kernel invocation, recording every argument of the C call:
the routine name, the mode flags (65 is the character code of the letter A),
the dimensions, the pointer arguments, the workspace pointer and length, the
optional integer and real auxiliary buffers and the status the kernel writes
into the `info` slot. -/
structure KCall where
  name : String
  jobs : List Int
  m : Int
  n : Int
  a : Ptr
  lda : Int
  s : Ptr
  u : Ptr
  ldu : Int
  vt : Ptr
  ldvt : Int
  work : Ptr
  lwork : Int
  iwork : Option Ptr
  rwork : Option Ptr
  status : Int
deriving DecidableEq

/-- Observable events of one invocation of a wrapper. -/
inductive Event
  | alloc (p : Ptr) (count : Int) (ty : CTy)
  | allocFail (count : Int) (ty : CTy)
  | copy (dst src : Ptr) (bytes : Int)
  | kcall (c : KCall)
  | free (p : Ptr)
  | ret (code : Int)
deriving DecidableEq

/-- Environment supplying the behaviour of malloc and of the external kernel
for one invocation. -/
structure Env where
  allocOk : Nat → Bool
  ans : ℚ
  res1 : Int
  res2 : Int

/-- Error code for a failed dimension check, from lapack-aux.c. -/
def BAD_SIZE : Int := 1000

/-- Error code BAD_CODE from lapack-aux.c. -/
def BAD_CODE : Int := 1001

/-- Error code for a failed allocation, from lapack-aux.c. -/
def MEM : Int := 1002

/-- Error code BAD_FILE from lapack-aux.c. -/
def BAD_FILE : Int := 1003

/-- Trace semantics of `svd_l_Rdd` (real divide-and-conquer SVD wrapper):
check the output dimensions, malloc and fill the private copy `B`, malloc the
`8*q` integer buffer `iwk`, query `dgesdd_` for the optimal workspace size
with `lwk = -1` and the one-element slot `ans`, set `lwk = 2*ceil(ans)`,
malloc `workv`, run `dgesdd_` for real, and free the buffers only when the
second call reports status 0. -/
def svd_l_Rdd (ar ac ur uc sn vr vc : Int) (e : Env) : List Event :=
  let m := ar
  let n := ac
  let q := min m n
  if ur = m ∧ uc = m ∧ sn = q ∧ vr = n ∧ vc = n then
    if e.allocOk 0 then
      Event.alloc Ptr.B (m * n) CTy.tdouble ::
      Event.copy Ptr.B Ptr.ap (m * n * 8) ::
      if e.allocOk 1 then
        Event.alloc Ptr.iwk (8 * q) CTy.tint ::
        Event.kcall { name := "dgesdd", jobs := [65], m := m, n := n,
                      a := Ptr.B, lda := m, s := Ptr.sp, u := Ptr.up, ldu := m,
                      vt := Ptr.vp, ldvt := n, work := Ptr.ansSlot, lwork := -1,
                      iwork := some Ptr.iwk, rwork := none, status := e.res1 } ::
        let lwk : Int := 2 * ⌈e.ans⌉
        if e.allocOk 2 then
          Event.alloc Ptr.workv lwk CTy.tdouble ::
          Event.kcall { name := "dgesdd", jobs := [65], m := m, n := n,
                        a := Ptr.B, lda := m, s := Ptr.sp, u := Ptr.up, ldu := m,
                        vt := Ptr.vp, ldvt := n, work := Ptr.workv, lwork := lwk,
                        iwork := some Ptr.iwk, rwork := none, status := e.res2 } ::
          if e.res2 = 0 then
            [Event.free Ptr.iwk, Event.free Ptr.workv, Event.free Ptr.B,
             Event.ret 0]
          else
            [Event.ret e.res2]
        else
          [Event.allocFail lwk CTy.tdouble, Event.ret MEM]
      else
        [Event.allocFail (8 * q) CTy.tint, Event.ret MEM]
    else
      [Event.allocFail (m * n) CTy.tdouble, Event.ret MEM]
  else
    [Event.ret BAD_SIZE]

/-- Trace semantics of `svd_l_R` (real classic SVD wrapper): check the output
dimensions, malloc and fill the private copy `B`, query `dgesvd_` with
`lwork = -1` and the one-element slot `ans`, set `lwork = ceil(ans)`, malloc
`work`, run `dgesvd_` for real, and free the buffers only when the second
call reports status 0. -/
def svd_l_R (ar ac ur uc sn vr vc : Int) (e : Env) : List Event :=
  let m := ar
  let n := ac
  let q := min m n
  if ur = m ∧ uc = m ∧ sn = q ∧ vr = n ∧ vc = n then
    if e.allocOk 0 then
      Event.alloc Ptr.B (m * n) CTy.tdouble ::
      Event.copy Ptr.B Ptr.ap (m * n * 8) ::
      Event.kcall { name := "dgesvd", jobs := [65, 65], m := m, n := n,
                    a := Ptr.B, lda := m, s := Ptr.sp, u := Ptr.up, ldu := m,
                    vt := Ptr.vp, ldvt := n, work := Ptr.ansSlot, lwork := -1,
                    iwork := none, rwork := none, status := e.res1 } ::
      let lwork : Int := ⌈e.ans⌉
      if e.allocOk 1 then
        Event.alloc Ptr.work lwork CTy.tdouble ::
        Event.kcall { name := "dgesvd", jobs := [65, 65], m := m, n := n,
                      a := Ptr.B, lda := m, s := Ptr.sp, u := Ptr.up, ldu := m,
                      vt := Ptr.vp, ldvt := n, work := Ptr.work, lwork := lwork,
                      iwork := none, rwork := none, status := e.res2 } ::
        if e.res2 = 0 then
          [Event.free Ptr.work, Event.free Ptr.B, Event.ret 0]
        else
          [Event.ret e.res2]
      else
        [Event.allocFail lwork CTy.tdouble, Event.ret MEM]
    else
      [Event.allocFail (m * n) CTy.tdouble, Event.ret MEM]
  else
    [Event.ret BAD_SIZE]

/-- Trace semantics of `svd_l_C` (complex classic SVD wrapper): check the
output dimensions, malloc and fill the private copy `B` of `2*m*n` doubles,
malloc the `5*q` real buffer `rwork`, query `zgesvd_` with `lwork = -1` and
the one-element slot `ans`, set `lwork = ceil(ans)`, malloc `work` of
`lwork*2` doubles, run `zgesvd_` for real, and free the buffers only when the
second call reports status 0. -/
def svd_l_C (ar ac ur uc sn vr vc : Int) (e : Env) : List Event :=
  let m := ar
  let n := ac
  let q := min m n
  if ur = m ∧ uc = m ∧ sn = q ∧ vr = n ∧ vc = n then
    if e.allocOk 0 then
      Event.alloc Ptr.B (2 * m * n) CTy.tdouble ::
      Event.copy Ptr.B Ptr.ap (m * n * 2 * 8) ::
      if e.allocOk 1 then
        Event.alloc Ptr.rwork (5 * q) CTy.tdouble ::
        Event.kcall { name := "zgesvd", jobs := [65, 65], m := m, n := n,
                      a := Ptr.B, lda := m, s := Ptr.sp, u := Ptr.up, ldu := m,
                      vt := Ptr.vp, ldvt := n, work := Ptr.ansSlot, lwork := -1,
                      iwork := none, rwork := some Ptr.rwork, status := e.res1 } ::
        let lwork : Int := ⌈e.ans⌉
        if e.allocOk 2 then
          Event.alloc Ptr.work (lwork * 2) CTy.tdouble ::
          Event.kcall { name := "zgesvd", jobs := [65, 65], m := m, n := n,
                        a := Ptr.B, lda := m, s := Ptr.sp, u := Ptr.up, ldu := m,
                        vt := Ptr.vp, ldvt := n, work := Ptr.work, lwork := lwork,
                        iwork := none, rwork := some Ptr.rwork, status := e.res2 } ::
          if e.res2 = 0 then
            [Event.free Ptr.work, Event.free Ptr.rwork, Event.free Ptr.B,
             Event.ret 0]
          else
            [Event.ret e.res2]
        else
          [Event.allocFail (lwork * 2) CTy.tdouble, Event.ret MEM]
      else
        [Event.allocFail (5 * q) CTy.tdouble, Event.ret MEM]
    else
      [Event.allocFail (2 * m * n) CTy.tdouble, Event.ret MEM]
  else
    [Event.ret BAD_SIZE]

/-- The return code of a trace: the code of its first `ret` event. -/
def retOf : List Event → Int
  | [] => 0
  | Event.ret c :: _ => c
  | _ :: tr => retOf tr

/-- The kernel calls of a trace, in order. -/
def kcallsOf : List Event → List KCall
  | [] => []
  | Event.kcall c :: tr => c :: kcallsOf tr
  | _ :: tr => kcallsOf tr

/-- The successful allocations of a trace, with element count and type. -/
def allocsOf : List Event → List (Ptr × Int × CTy)
  | [] => []
  | Event.alloc p c t :: tr => (p, c, t) :: allocsOf tr
  | _ :: tr => allocsOf tr

/-- The buffers successfully allocated in a trace. -/
def allocedPtrs : List Event → List Ptr
  | [] => []
  | Event.alloc p _ _ :: tr => p :: allocedPtrs tr
  | _ :: tr => allocedPtrs tr

/-- The buffers freed in a trace. -/
def freesOf : List Event → List Ptr
  | [] => []
  | Event.free p :: tr => p :: freesOf tr
  | _ :: tr => freesOf tr

/-- The buffers an event may write through: a memcpy writes its destination;
a kernel call writes through its matrix, output, workspace, auxiliary and
status arguments.  Allocation, free and return write through no pointer. -/
def eventWrites : Event → List Ptr
  | Event.copy dst _ _ => [dst]
  | Event.kcall c =>
      [c.a, c.s, c.u, c.vt, c.work, Ptr.resSlot] ++ c.iwork.toList ++ c.rwork.toList
  | _ => []

/-- A trace leaks nothing when every buffer it allocates is also freed. -/
def noLeak (tr : List Event) : Prop :=
  ∀ p ∈ allocedPtrs tr, p ∈ freesOf tr

instance (tr : List Event) : Decidable (noLeak tr) :=
  inferInstanceAs (Decidable (∀ p ∈ allocedPtrs tr, p ∈ freesOf tr))

/-- The dimension precondition `REQUIRES(ur==m && uc==m && sn==q && vr==n &&
vc==n, BAD_SIZE)` shared by the three wrappers. -/
def validDims (ar ac ur uc sn vr vc : Int) : Prop :=
  ur = ar ∧ uc = ar ∧ sn = min ar ac ∧ vr = ac ∧ vc = ac

instance (ar ac ur uc sn vr vc : Int) :
    Decidable (validDims ar ac ur uc sn vr vc) :=
  inferInstanceAs (Decidable (_ ∧ _ ∧ _ ∧ _ ∧ _))

/-- Every malloc of the invocation succeeds. -/
def allocsSucceed (e : Env) : Prop :=
  ∀ i, e.allocOk i = true

/-- Erase the kernel-written statuses from a trace, keeping everything the
wrapper itself determines. -/
def eraseStatus : Event → Event
  | Event.kcall c => Event.kcall { c with status := 0 }
  | ev => ev

/-- Memory contents, one value list per buffer identity. -/
def MemSt : Type := Ptr → List ℚ

/-- A single event turns memory `μ` into memory `ν` only by writing through
the pointers in `eventWrites`: every other buffer keeps its contents. -/
def agreesOutside (ev : Event) (μ ν : MemSt) : Prop :=
  ∀ p, p ∉ eventWrites ev → ν p = μ p

/-- Big-step execution of a trace over memory: each event changes at most the
buffers it writes through. -/
inductive runTr : List Event → MemSt → MemSt → Prop
  | nil (μ : MemSt) : runTr [] μ μ
  | cons {ev : Event} {tr : List Event} {μ ν ρ : MemSt} :
      agreesOutside ev μ ν → runTr tr ν ρ → runTr (ev :: tr) μ ρ

/-- Executing a trace without changing memory is always admissible. -/
theorem runTr_refl (tr : List Event) (μ : MemSt) : runTr tr μ μ := by
  induction tr with
  | nil => exact runTr.nil μ
  | cons ev tr ih => exact runTr.cons (fun p _ => rfl) ih

/-- If no event of a trace writes through ap, any execution of the trace
leaves the contents of ap unchanged. -/
theorem ap_stable {tr : List Event} {μ ρ : MemSt} (hr : runTr tr μ ρ)
    (hw : ∀ ev ∈ tr, Ptr.ap ∉ eventWrites ev) :
    ρ Ptr.ap = μ Ptr.ap := by
  induction hr with
  | nil => rfl
  | cons hstep _htail ih =>
      rw [ih (fun ev hm => hw ev (List.mem_cons_of_mem _ hm))]
      exact hstep Ptr.ap (hw _ (List.mem_cons_self _ _))

/-- No event of an svd_l_Rdd trace writes through the input pointer ap. -/
theorem svd_l_Rdd_no_ap_write (ar ac ur uc sn vr vc : Int) (e : Env) :
    ∀ ev ∈ svd_l_Rdd ar ac ur uc sn vr vc e, Ptr.ap ∉ eventWrites ev := by
  simp only [svd_l_Rdd]
  split_ifs <;> simp [eventWrites, List.forall_mem_cons, Option.toList]

/-- No event of an svd_l_R trace writes through the input pointer ap. -/
theorem svd_l_R_no_ap_write (ar ac ur uc sn vr vc : Int) (e : Env) :
    ∀ ev ∈ svd_l_R ar ac ur uc sn vr vc e, Ptr.ap ∉ eventWrites ev := by
  simp only [svd_l_R]
  split_ifs <;> simp [eventWrites, List.forall_mem_cons, Option.toList]

/-- No event of an svd_l_C trace writes through the input pointer ap. -/
theorem svd_l_C_no_ap_write (ar ac ur uc sn vr vc : Int) (e : Env) :
    ∀ ev ∈ svd_l_C ar ac ur uc sn vr vc e, Ptr.ap ∉ eventWrites ev := by
  simp only [svd_l_C]
  split_ifs <;> simp [eventWrites, List.forall_mem_cons, Option.toList]

/-- C3: if the output descriptors do not satisfy ur = m, uc = m, sn = q,
vr = n and vc = n, each of the three wrappers returns the size-mismatch code
BAD_SIZE = 1000, its trace being the single return event: no allocation and
no kernel call is performed. -/
theorem c3_bad_size_checked_first (ar ac ur uc sn vr vc : Int) (e : Env)
    (h : ¬ validDims ar ac ur uc sn vr vc) :
    svd_l_Rdd ar ac ur uc sn vr vc e = [Event.ret BAD_SIZE] ∧
    svd_l_R ar ac ur uc sn vr vc e = [Event.ret BAD_SIZE] ∧
    svd_l_C ar ac ur uc sn vr vc e = [Event.ret BAD_SIZE] ∧
    retOf [Event.ret BAD_SIZE] = 1000 ∧
    allocsOf [Event.ret BAD_SIZE] = [] ∧
    kcallsOf [Event.ret BAD_SIZE] = [] := by
  simp only [validDims] at h
  simp [svd_l_Rdd, svd_l_R, svd_l_C, h, retOf, allocsOf, kcallsOf, BAD_SIZE]

/-- Witness for C3: a 2 by 3 input whose u descriptor is 0 by 0 is rejected
with BAD_SIZE and an allocation-free, kernel-call-free trace. -/
theorem c3_witness :
    svd_l_Rdd 2 3 0 0 2 3 3 { allocOk := fun _ => true, ans := 1, res1 := 0, res2 := 0 } = [Event.ret BAD_SIZE] ∧
    svd_l_R 2 3 0 0 2 3 3 { allocOk := fun _ => true, ans := 1, res1 := 0, res2 := 0 } = [Event.ret BAD_SIZE] ∧
    svd_l_C 2 3 0 0 2 3 3 { allocOk := fun _ => true, ans := 1, res1 := 0, res2 := 0 } = [Event.ret BAD_SIZE] ∧
    retOf [Event.ret BAD_SIZE] = 1000 ∧
    allocsOf [Event.ret BAD_SIZE] = [] ∧
    kcallsOf [Event.ret BAD_SIZE] = [] :=
  c3_bad_size_checked_first 2 3 0 0 2 3 3
    { allocOk := fun _ => true, ans := 1, res1 := 0, res2 := 0 } (by decide)

/-- C5: when the dimension preconditions hold and every allocation succeeds,
each wrapper returns 0 when the second (execution) kernel call writes status
0 and returns that status verbatim when it is nonzero. -/
theorem c5_status_passthrough (ar ac ur uc sn vr vc : Int) (e : Env)
    (h : validDims ar ac ur uc sn vr vc) (ha : allocsSucceed e) :
    (e.res2 = 0 →
      retOf (svd_l_Rdd ar ac ur uc sn vr vc e) = 0 ∧
      retOf (svd_l_R ar ac ur uc sn vr vc e) = 0 ∧
      retOf (svd_l_C ar ac ur uc sn vr vc e) = 0) ∧
    (e.res2 ≠ 0 →
      retOf (svd_l_Rdd ar ac ur uc sn vr vc e) = e.res2 ∧
      retOf (svd_l_R ar ac ur uc sn vr vc e) = e.res2 ∧
      retOf (svd_l_C ar ac ur uc sn vr vc e) = e.res2) := by
  obtain ⟨h1, h2, h3, h4, h5⟩ := h
  subst h1; subst h2; subst h3; subst h4; subst h5
  constructor <;> intro hr <;>
    simp [svd_l_Rdd, svd_l_R, svd_l_C, ha 0, ha 1, ha 2, hr, retOf]

/-- Witness for C5: a 2 by 3 call with kernel status 7 returns 7. -/
theorem c5_witness :
    retOf (svd_l_Rdd 2 3 2 2 2 3 3 { allocOk := fun _ => true, ans := 1, res1 := 0, res2 := 7 }) = 7 ∧
    retOf (svd_l_R 2 3 2 2 2 3 3 { allocOk := fun _ => true, ans := 1, res1 := 0, res2 := 7 }) = 7 ∧
    retOf (svd_l_C 2 3 2 2 2 3 3 { allocOk := fun _ => true, ans := 1, res1 := 0, res2 := 7 }) = 7 :=
  (c5_status_passthrough 2 3 2 2 2 3 3
    { allocOk := fun _ => true, ans := 1, res1 := 0, res2 := 7 }
    (by decide) (fun i => rfl)).2 (by decide)

/-- C6: the workspace length handed to the second kernel call is
2 * ceil(ans) for the divide-and-conquer wrapper svd_l_Rdd and ceil(ans),
without doubling, for svd_l_R and svd_l_C; the first call always passes the
query sentinel -1. -/
theorem c6_workspace_sizing (ar ac ur uc sn vr vc : Int) (e : Env)
    (h : validDims ar ac ur uc sn vr vc) (ha : allocsSucceed e) :
    (kcallsOf (svd_l_Rdd ar ac ur uc sn vr vc e)).map KCall.lwork = [-1, 2 * ⌈e.ans⌉] ∧
    (kcallsOf (svd_l_R ar ac ur uc sn vr vc e)).map KCall.lwork = [-1, ⌈e.ans⌉] ∧
    (kcallsOf (svd_l_C ar ac ur uc sn vr vc e)).map KCall.lwork = [-1, ⌈e.ans⌉] := by
  obtain ⟨h1, h2, h3, h4, h5⟩ := h
  subst h1; subst h2; subst h3; subst h4; subst h5
  by_cases hr : e.res2 = 0 <;>
    simp [svd_l_Rdd, svd_l_R, svd_l_C, ha 0, ha 1, ha 2, hr, kcallsOf]

/-- Witness for C6: with recommendation ans = 7/2 the execution call gets
lwork 8 in svd_l_Rdd and lwork 4 in svd_l_R and svd_l_C. -/
theorem c6_witness :
    (kcallsOf (svd_l_Rdd 2 3 2 2 2 3 3 { allocOk := fun _ => true, ans := 7/2, res1 := 0, res2 := 0 })).map KCall.lwork = [-1, 2 * ⌈(7/2 : ℚ)⌉] ∧
    (kcallsOf (svd_l_R 2 3 2 2 2 3 3 { allocOk := fun _ => true, ans := 7/2, res1 := 0, res2 := 0 })).map KCall.lwork = [-1, ⌈(7/2 : ℚ)⌉] ∧
    (kcallsOf (svd_l_C 2 3 2 2 2 3 3 { allocOk := fun _ => true, ans := 7/2, res1 := 0, res2 := 0 })).map KCall.lwork = [-1, ⌈(7/2 : ℚ)⌉] :=
  c6_workspace_sizing 2 3 2 2 2 3 3
    { allocOk := fun _ => true, ans := 7/2, res1 := 0, res2 := 0 }
    (by decide) (fun i => rfl)

/-- C7: a successful invocation (return value 0) of each wrapper makes
exactly two kernel calls: first the size query with workspace-length sentinel
-1 and the one-element slot ans, then the execution call with the allocated
workspace buffer and its computed length; the trace also contains the
allocation of that workspace. -/
theorem c7_two_phase_protocol (ar ac ur uc sn vr vc : Int) (e : Env)
    (h1 : retOf (svd_l_Rdd ar ac ur uc sn vr vc e) = 0)
    (_h2 : retOf (svd_l_R ar ac ur uc sn vr vc e) = 0)
    (_h3 : retOf (svd_l_C ar ac ur uc sn vr vc e) = 0) :
    (kcallsOf (svd_l_Rdd ar ac ur uc sn vr vc e)).map (fun c => (c.work, c.lwork)) =
      [(Ptr.ansSlot, -1), (Ptr.workv, 2 * ⌈e.ans⌉)] ∧
    Event.alloc Ptr.workv (2 * ⌈e.ans⌉) CTy.tdouble ∈ svd_l_Rdd ar ac ur uc sn vr vc e ∧
    (kcallsOf (svd_l_R ar ac ur uc sn vr vc e)).map (fun c => (c.work, c.lwork)) =
      [(Ptr.ansSlot, -1), (Ptr.work, ⌈e.ans⌉)] ∧
    Event.alloc Ptr.work ⌈e.ans⌉ CTy.tdouble ∈ svd_l_R ar ac ur uc sn vr vc e ∧
    (kcallsOf (svd_l_C ar ac ur uc sn vr vc e)).map (fun c => (c.work, c.lwork)) =
      [(Ptr.ansSlot, -1), (Ptr.work, ⌈e.ans⌉)] ∧
    Event.alloc Ptr.work (⌈e.ans⌉ * 2) CTy.tdouble ∈ svd_l_C ar ac ur uc sn vr vc e := by
  simp only [svd_l_Rdd, svd_l_R, svd_l_C] at h1 ⊢
  split_ifs at h1 ⊢ <;>
    simp_all [retOf, kcallsOf, BAD_SIZE, MEM]

/-- Witness for C7: the protocol shape of a successful 2 by 3 call with
recommendation 1. -/
theorem c7_witness :
    (kcallsOf (svd_l_Rdd 2 3 2 2 2 3 3 { allocOk := fun _ => true, ans := 1, res1 := 0, res2 := 0 })).map (fun c => (c.work, c.lwork)) =
      [(Ptr.ansSlot, -1), (Ptr.workv, 2 * ⌈(1 : ℚ)⌉)] ∧
    Event.alloc Ptr.workv (2 * ⌈(1 : ℚ)⌉) CTy.tdouble ∈ svd_l_Rdd 2 3 2 2 2 3 3 { allocOk := fun _ => true, ans := 1, res1 := 0, res2 := 0 } ∧
    (kcallsOf (svd_l_R 2 3 2 2 2 3 3 { allocOk := fun _ => true, ans := 1, res1 := 0, res2 := 0 })).map (fun c => (c.work, c.lwork)) =
      [(Ptr.ansSlot, -1), (Ptr.work, ⌈(1 : ℚ)⌉)] ∧
    Event.alloc Ptr.work ⌈(1 : ℚ)⌉ CTy.tdouble ∈ svd_l_R 2 3 2 2 2 3 3 { allocOk := fun _ => true, ans := 1, res1 := 0, res2 := 0 } ∧
    (kcallsOf (svd_l_C 2 3 2 2 2 3 3 { allocOk := fun _ => true, ans := 1, res1 := 0, res2 := 0 })).map (fun c => (c.work, c.lwork)) =
      [(Ptr.ansSlot, -1), (Ptr.work, ⌈(1 : ℚ)⌉)] ∧
    Event.alloc Ptr.work (⌈(1 : ℚ)⌉ * 2) CTy.tdouble ∈ svd_l_C 2 3 2 2 2 3 3 { allocOk := fun _ => true, ans := 1, res1 := 0, res2 := 0 } :=
  c7_two_phase_protocol 2 3 2 2 2 3 3
    { allocOk := fun _ => true, ans := 1, res1 := 0, res2 := 0 }
    (by decide) (by decide) (by decide)

/-- C8: with q = min(m,n), svd_l_Rdd allocates the auxiliary integer buffer
iwk of exactly 8*q elements; svd_l_C allocates the auxiliary real buffer
rwork of exactly 5*q doubles and a work buffer of 2 doubles per workspace
element; svd_l_R allocates neither auxiliary buffer, only the private copy B
and the plain work buffer. -/
theorem c8_auxiliary_buffers (ar ac ur uc sn vr vc : Int) (e : Env)
    (h : validDims ar ac ur uc sn vr vc) (ha : allocsSucceed e) :
    Event.alloc Ptr.iwk (8 * min ar ac) CTy.tint ∈ svd_l_Rdd ar ac ur uc sn vr vc e ∧
    Event.alloc Ptr.rwork (5 * min ar ac) CTy.tdouble ∈ svd_l_C ar ac ur uc sn vr vc e ∧
    Event.alloc Ptr.work (⌈e.ans⌉ * 2) CTy.tdouble ∈ svd_l_C ar ac ur uc sn vr vc e ∧
    allocedPtrs (svd_l_R ar ac ur uc sn vr vc e) = [Ptr.B, Ptr.work] ∧
    Event.alloc Ptr.B (ar * ac) CTy.tdouble ∈ svd_l_R ar ac ur uc sn vr vc e ∧
    Event.alloc Ptr.work ⌈e.ans⌉ CTy.tdouble ∈ svd_l_R ar ac ur uc sn vr vc e := by
  obtain ⟨h1, h2, h3, h4, h5⟩ := h
  subst h1; subst h2; subst h3; subst h4; subst h5
  by_cases hr : e.res2 = 0 <;>
    simp [svd_l_Rdd, svd_l_R, svd_l_C, ha 0, ha 1, ha 2, hr, allocedPtrs]

/-- Witness for C8 on a 2 by 3 input: iwk gets 8*2 = 16 ints, rwork gets
5*2 = 10 doubles, and svd_l_R allocates exactly B and work. -/
theorem c8_witness :
    Event.alloc Ptr.iwk (8 * min 2 3) CTy.tint ∈ svd_l_Rdd 2 3 2 2 2 3 3 { allocOk := fun _ => true, ans := 1, res1 := 0, res2 := 0 } ∧
    Event.alloc Ptr.rwork (5 * min 2 3) CTy.tdouble ∈ svd_l_C 2 3 2 2 2 3 3 { allocOk := fun _ => true, ans := 1, res1 := 0, res2 := 0 } ∧
    Event.alloc Ptr.work (⌈(1 : ℚ)⌉ * 2) CTy.tdouble ∈ svd_l_C 2 3 2 2 2 3 3 { allocOk := fun _ => true, ans := 1, res1 := 0, res2 := 0 } ∧
    allocedPtrs (svd_l_R 2 3 2 2 2 3 3 { allocOk := fun _ => true, ans := 1, res1 := 0, res2 := 0 }) = [Ptr.B, Ptr.work] ∧
    Event.alloc Ptr.B (2 * 3) CTy.tdouble ∈ svd_l_R 2 3 2 2 2 3 3 { allocOk := fun _ => true, ans := 1, res1 := 0, res2 := 0 } ∧
    Event.alloc Ptr.work ⌈(1 : ℚ)⌉ CTy.tdouble ∈ svd_l_R 2 3 2 2 2 3 3 { allocOk := fun _ => true, ans := 1, res1 := 0, res2 := 0 } :=
  c8_auxiliary_buffers 2 3 2 2 2 3 3
    { allocOk := fun _ => true, ans := 1, res1 := 0, res2 := 0 }
    (by decide) (fun i => rfl)

/-- C9: the caller input buffer is never written: no event of any wrapper
trace writes through ap, the trace contains the byte-for-byte copy of the
m*n (complex: 2*m*n) input doubles into the private buffer B, every kernel
call receives B, not ap, as its overwritable matrix argument, and any
execution of the trace leaves the contents of ap unchanged. -/
theorem c9_input_never_written (ar ac ur uc sn vr vc : Int) (e : Env)
    (μ1 ρ1 μ2 ρ2 μ3 ρ3 : MemSt)
    (hv : validDims ar ac ur uc sn vr vc) (h0 : e.allocOk 0 = true)
    (r1 : runTr (svd_l_Rdd ar ac ur uc sn vr vc e) μ1 ρ1)
    (r2 : runTr (svd_l_R ar ac ur uc sn vr vc e) μ2 ρ2)
    (r3 : runTr (svd_l_C ar ac ur uc sn vr vc e) μ3 ρ3) :
    ρ1 Ptr.ap = μ1 Ptr.ap ∧ ρ2 Ptr.ap = μ2 Ptr.ap ∧ ρ3 Ptr.ap = μ3 Ptr.ap ∧
    Event.copy Ptr.B Ptr.ap (ar * ac * 8) ∈ svd_l_Rdd ar ac ur uc sn vr vc e ∧
    Event.copy Ptr.B Ptr.ap (ar * ac * 8) ∈ svd_l_R ar ac ur uc sn vr vc e ∧
    Event.copy Ptr.B Ptr.ap (ar * ac * 2 * 8) ∈ svd_l_C ar ac ur uc sn vr vc e ∧
    (∀ c ∈ kcallsOf (svd_l_Rdd ar ac ur uc sn vr vc e), c.a = Ptr.B) ∧
    (∀ c ∈ kcallsOf (svd_l_R ar ac ur uc sn vr vc e), c.a = Ptr.B) ∧
    (∀ c ∈ kcallsOf (svd_l_C ar ac ur uc sn vr vc e), c.a = Ptr.B) := by
  refine ⟨ap_stable r1 (svd_l_Rdd_no_ap_write _ _ _ _ _ _ _ _),
          ap_stable r2 (svd_l_R_no_ap_write _ _ _ _ _ _ _ _),
          ap_stable r3 (svd_l_C_no_ap_write _ _ _ _ _ _ _ _), ?_⟩
  obtain ⟨h1, h2, h3, h4, h5⟩ := hv
  subst h1; subst h2; subst h3; subst h4; subst h5
  by_cases h1a : e.allocOk 1 <;> by_cases h2a : e.allocOk 2 <;>
    by_cases hr : e.res2 = 0 <;>
    simp [svd_l_Rdd, svd_l_R, svd_l_C, h0, h1a, h2a, hr, kcallsOf,
      List.forall_mem_cons]

/-- The all-empty memory used to witness the frame theorem. -/
def emptyMem : MemSt := fun _ => []

/-- Witness for C9 on a 2 by 3 input over the empty memory. -/
theorem c9_witness :
    emptyMem Ptr.ap = emptyMem Ptr.ap ∧ emptyMem Ptr.ap = emptyMem Ptr.ap ∧
    emptyMem Ptr.ap = emptyMem Ptr.ap ∧
    Event.copy Ptr.B Ptr.ap (2 * 3 * 8) ∈ svd_l_Rdd 2 3 2 2 2 3 3 { allocOk := fun _ => true, ans := 1, res1 := 0, res2 := 0 } ∧
    Event.copy Ptr.B Ptr.ap (2 * 3 * 8) ∈ svd_l_R 2 3 2 2 2 3 3 { allocOk := fun _ => true, ans := 1, res1 := 0, res2 := 0 } ∧
    Event.copy Ptr.B Ptr.ap (2 * 3 * 2 * 8) ∈ svd_l_C 2 3 2 2 2 3 3 { allocOk := fun _ => true, ans := 1, res1 := 0, res2 := 0 } ∧
    (∀ c ∈ kcallsOf (svd_l_Rdd 2 3 2 2 2 3 3 { allocOk := fun _ => true, ans := 1, res1 := 0, res2 := 0 }), c.a = Ptr.B) ∧
    (∀ c ∈ kcallsOf (svd_l_R 2 3 2 2 2 3 3 { allocOk := fun _ => true, ans := 1, res1 := 0, res2 := 0 }), c.a = Ptr.B) ∧
    (∀ c ∈ kcallsOf (svd_l_C 2 3 2 2 2 3 3 { allocOk := fun _ => true, ans := 1, res1 := 0, res2 := 0 }), c.a = Ptr.B) :=
  c9_input_never_written 2 3 2 2 2 3 3
    { allocOk := fun _ => true, ans := 1, res1 := 0, res2 := 0 }
    emptyMem emptyMem emptyMem emptyMem emptyMem emptyMem
    (by decide) rfl
    (runTr_refl _ emptyMem) (runTr_refl _ emptyMem) (runTr_refl _ emptyMem)

/-- C10: the status written by the first (size-query) kernel call is never
examined: replacing it by an arbitrary value changes the trace only in that
recorded status, leaves the return value unchanged, and the wrapper still
allocates the workspace and performs both kernel calls. -/
theorem c10_query_status_ignored (ar ac ur uc sn vr vc : Int) (e : Env)
    (r : Int) (h : validDims ar ac ur uc sn vr vc) (ha : allocsSucceed e) :
    (svd_l_Rdd ar ac ur uc sn vr vc e).map eraseStatus =
      (svd_l_Rdd ar ac ur uc sn vr vc { e with res1 := r }).map eraseStatus ∧
    retOf (svd_l_Rdd ar ac ur uc sn vr vc e) =
      retOf (svd_l_Rdd ar ac ur uc sn vr vc { e with res1 := r }) ∧
    (kcallsOf (svd_l_Rdd ar ac ur uc sn vr vc { e with res1 := r })).length = 2 ∧
    Event.alloc Ptr.workv (2 * ⌈e.ans⌉) CTy.tdouble ∈
      svd_l_Rdd ar ac ur uc sn vr vc { e with res1 := r } ∧
    (svd_l_R ar ac ur uc sn vr vc e).map eraseStatus =
      (svd_l_R ar ac ur uc sn vr vc { e with res1 := r }).map eraseStatus ∧
    retOf (svd_l_R ar ac ur uc sn vr vc e) =
      retOf (svd_l_R ar ac ur uc sn vr vc { e with res1 := r }) ∧
    (kcallsOf (svd_l_R ar ac ur uc sn vr vc { e with res1 := r })).length = 2 ∧
    Event.alloc Ptr.work ⌈e.ans⌉ CTy.tdouble ∈
      svd_l_R ar ac ur uc sn vr vc { e with res1 := r } ∧
    (svd_l_C ar ac ur uc sn vr vc e).map eraseStatus =
      (svd_l_C ar ac ur uc sn vr vc { e with res1 := r }).map eraseStatus ∧
    retOf (svd_l_C ar ac ur uc sn vr vc e) =
      retOf (svd_l_C ar ac ur uc sn vr vc { e with res1 := r }) ∧
    (kcallsOf (svd_l_C ar ac ur uc sn vr vc { e with res1 := r })).length = 2 ∧
    Event.alloc Ptr.work (⌈e.ans⌉ * 2) CTy.tdouble ∈
      svd_l_C ar ac ur uc sn vr vc { e with res1 := r } := by
  obtain ⟨h1, h2, h3, h4, h5⟩ := h
  subst h1; subst h2; subst h3; subst h4; subst h5
  by_cases hr : e.res2 = 0 <;>
    simp [svd_l_Rdd, svd_l_R, svd_l_C, ha 0, ha 1, ha 2, hr, eraseStatus,
      retOf, kcallsOf]

/-- Witness for C10: replacing the query status 0 by 55 on a 2 by 3 call
changes nothing observable. -/
theorem c10_witness :
    (svd_l_Rdd 2 3 2 2 2 3 3 { allocOk := fun _ => true, ans := 1, res1 := 0, res2 := 0 }).map eraseStatus =
      (svd_l_Rdd 2 3 2 2 2 3 3 { allocOk := fun _ => true, ans := 1, res1 := 55, res2 := 0 }).map eraseStatus ∧
    retOf (svd_l_Rdd 2 3 2 2 2 3 3 { allocOk := fun _ => true, ans := 1, res1 := 0, res2 := 0 }) =
      retOf (svd_l_Rdd 2 3 2 2 2 3 3 { allocOk := fun _ => true, ans := 1, res1 := 55, res2 := 0 }) ∧
    (kcallsOf (svd_l_Rdd 2 3 2 2 2 3 3 { allocOk := fun _ => true, ans := 1, res1 := 55, res2 := 0 })).length = 2 ∧
    Event.alloc Ptr.workv (2 * ⌈(1 : ℚ)⌉) CTy.tdouble ∈
      svd_l_Rdd 2 3 2 2 2 3 3 { allocOk := fun _ => true, ans := 1, res1 := 55, res2 := 0 } ∧
    (svd_l_R 2 3 2 2 2 3 3 { allocOk := fun _ => true, ans := 1, res1 := 0, res2 := 0 }).map eraseStatus =
      (svd_l_R 2 3 2 2 2 3 3 { allocOk := fun _ => true, ans := 1, res1 := 55, res2 := 0 }).map eraseStatus ∧
    retOf (svd_l_R 2 3 2 2 2 3 3 { allocOk := fun _ => true, ans := 1, res1 := 0, res2 := 0 }) =
      retOf (svd_l_R 2 3 2 2 2 3 3 { allocOk := fun _ => true, ans := 1, res1 := 55, res2 := 0 }) ∧
    (kcallsOf (svd_l_R 2 3 2 2 2 3 3 { allocOk := fun _ => true, ans := 1, res1 := 55, res2 := 0 })).length = 2 ∧
    Event.alloc Ptr.work ⌈(1 : ℚ)⌉ CTy.tdouble ∈
      svd_l_R 2 3 2 2 2 3 3 { allocOk := fun _ => true, ans := 1, res1 := 55, res2 := 0 } ∧
    (svd_l_C 2 3 2 2 2 3 3 { allocOk := fun _ => true, ans := 1, res1 := 0, res2 := 0 }).map eraseStatus =
      (svd_l_C 2 3 2 2 2 3 3 { allocOk := fun _ => true, ans := 1, res1 := 55, res2 := 0 }).map eraseStatus ∧
    retOf (svd_l_C 2 3 2 2 2 3 3 { allocOk := fun _ => true, ans := 1, res1 := 0, res2 := 0 }) =
      retOf (svd_l_C 2 3 2 2 2 3 3 { allocOk := fun _ => true, ans := 1, res1 := 55, res2 := 0 }) ∧
    (kcallsOf (svd_l_C 2 3 2 2 2 3 3 { allocOk := fun _ => true, ans := 1, res1 := 55, res2 := 0 })).length = 2 ∧
    Event.alloc Ptr.work (⌈(1 : ℚ)⌉ * 2) CTy.tdouble ∈
      svd_l_C 2 3 2 2 2 3 3 { allocOk := fun _ => true, ans := 1, res1 := 55, res2 := 0 } :=
  c10_query_status_ignored 2 3 2 2 2 3 3
    { allocOk := fun _ => true, ans := 1, res1 := 0, res2 := 0 } 55
    (by decide) (fun i => rfl)

/-- C1 is false on the code: with valid dimensions, successful allocations
and a nonzero status from the second kernel call, svd_l_Rdd returns that
status having issued no free at all, so the private copy B and the scratch
buffers iwk and workv outlive the call. -/
theorem c1_counterexample :
    retOf (svd_l_Rdd 2 3 2 2 2 3 3 { allocOk := fun _ => true, ans := 1, res1 := 0, res2 := 1 }) = 1 ∧
    allocedPtrs (svd_l_Rdd 2 3 2 2 2 3 3 { allocOk := fun _ => true, ans := 1, res1 := 0, res2 := 1 }) = [Ptr.B, Ptr.iwk, Ptr.workv] ∧
    freesOf (svd_l_Rdd 2 3 2 2 2 3 3 { allocOk := fun _ => true, ans := 1, res1 := 0, res2 := 1 }) = [] ∧
    ¬ noLeak (svd_l_Rdd 2 3 2 2 2 3 3 { allocOk := fun _ => true, ans := 1, res1 := 0, res2 := 1 }) := by
  decide

/-- C1 amended: the buffers are freed only on the fully successful path.
When the dimension check and all allocations succeed, a second-call status of
0 leads to every allocated buffer being freed, while a nonzero status makes
the wrapper return with no free at all, in all three variants. -/
theorem c1_amended_cleanup_on_success_only (ar ac ur uc sn vr vc : Int)
    (e : Env) (h : validDims ar ac ur uc sn vr vc) (ha : allocsSucceed e) :
    (e.res2 = 0 →
      noLeak (svd_l_Rdd ar ac ur uc sn vr vc e) ∧
      noLeak (svd_l_R ar ac ur uc sn vr vc e) ∧
      noLeak (svd_l_C ar ac ur uc sn vr vc e)) ∧
    (e.res2 ≠ 0 →
      freesOf (svd_l_Rdd ar ac ur uc sn vr vc e) = [] ∧
      freesOf (svd_l_R ar ac ur uc sn vr vc e) = [] ∧
      freesOf (svd_l_C ar ac ur uc sn vr vc e) = []) := by
  obtain ⟨h1, h2, h3, h4, h5⟩ := h
  subst h1; subst h2; subst h3; subst h4; subst h5
  constructor <;> intro hr <;>
    simp [svd_l_Rdd, svd_l_R, svd_l_C, ha 0, ha 1, ha 2, hr, noLeak,
      allocedPtrs, freesOf]

/-- Witness for the amended C1: on a successful 2 by 3 call every allocated
buffer is freed in all three wrappers. -/
theorem c1_witness :
    noLeak (svd_l_Rdd 2 3 2 2 2 3 3 { allocOk := fun _ => true, ans := 1, res1 := 0, res2 := 0 }) ∧
    noLeak (svd_l_R 2 3 2 2 2 3 3 { allocOk := fun _ => true, ans := 1, res1 := 0, res2 := 0 }) ∧
    noLeak (svd_l_C 2 3 2 2 2 3 3 { allocOk := fun _ => true, ans := 1, res1 := 0, res2 := 0 }) :=
  (c1_amended_cleanup_on_success_only 2 3 2 2 2 3 3
    { allocOk := fun _ => true, ans := 1, res1 := 0, res2 := 0 }
    (by decide) (fun i => rfl)).1 rfl

/-- C2 is false on the code: when the second malloc of svd_l_Rdd (the 8*q
integer buffer) fails, the wrapper returns MEM with the private copy B still
allocated and no free issued. -/
theorem c2_counterexample :
    retOf (svd_l_Rdd 2 3 2 2 2 3 3 { allocOk := fun i => i == 0, ans := 1, res1 := 0, res2 := 0 }) = MEM ∧
    allocedPtrs (svd_l_Rdd 2 3 2 2 2 3 3 { allocOk := fun i => i == 0, ans := 1, res1 := 0, res2 := 0 }) = [Ptr.B] ∧
    freesOf (svd_l_Rdd 2 3 2 2 2 3 3 { allocOk := fun i => i == 0, ans := 1, res1 := 0, res2 := 0 }) = [] ∧
    ¬ noLeak (svd_l_Rdd 2 3 2 2 2 3 3 { allocOk := fun i => i == 0, ans := 1, res1 := 0, res2 := 0 }) := by
  decide

/-- C2 amended: when a scratch allocation after the private input copy
fails, each wrapper returns the out-of-memory code MEM immediately but frees
nothing, leaving the private copy (and, in svd_l_Rdd and svd_l_C, any
earlier auxiliary buffer) allocated. -/
theorem c2_amended_oom_returns_without_free (ar ac ur uc sn vr vc : Int)
    (e : Env) (h : validDims ar ac ur uc sn vr vc) :
    (e.allocOk 0 = true → e.allocOk 1 = false →
      retOf (svd_l_Rdd ar ac ur uc sn vr vc e) = MEM ∧
      freesOf (svd_l_Rdd ar ac ur uc sn vr vc e) = [] ∧
      allocedPtrs (svd_l_Rdd ar ac ur uc sn vr vc e) = [Ptr.B] ∧
      retOf (svd_l_R ar ac ur uc sn vr vc e) = MEM ∧
      freesOf (svd_l_R ar ac ur uc sn vr vc e) = [] ∧
      allocedPtrs (svd_l_R ar ac ur uc sn vr vc e) = [Ptr.B] ∧
      retOf (svd_l_C ar ac ur uc sn vr vc e) = MEM ∧
      freesOf (svd_l_C ar ac ur uc sn vr vc e) = [] ∧
      allocedPtrs (svd_l_C ar ac ur uc sn vr vc e) = [Ptr.B]) ∧
    (e.allocOk 0 = true → e.allocOk 1 = true → e.allocOk 2 = false →
      retOf (svd_l_Rdd ar ac ur uc sn vr vc e) = MEM ∧
      freesOf (svd_l_Rdd ar ac ur uc sn vr vc e) = [] ∧
      allocedPtrs (svd_l_Rdd ar ac ur uc sn vr vc e) = [Ptr.B, Ptr.iwk] ∧
      retOf (svd_l_C ar ac ur uc sn vr vc e) = MEM ∧
      freesOf (svd_l_C ar ac ur uc sn vr vc e) = [] ∧
      allocedPtrs (svd_l_C ar ac ur uc sn vr vc e) = [Ptr.B, Ptr.rwork]) := by
  obtain ⟨h1, h2, h3, h4, h5⟩ := h
  subst h1; subst h2; subst h3; subst h4; subst h5
  constructor
  · intro ha0 ha1
    simp [svd_l_Rdd, svd_l_R, svd_l_C, ha0, ha1, retOf, freesOf, allocedPtrs]
  · intro ha0 ha1 ha2
    simp [svd_l_Rdd, svd_l_R, svd_l_C, ha0, ha1, ha2, retOf, freesOf,
      allocedPtrs]

/-- Witness for the amended C2: failing the second malloc of a 2 by 3 call
returns MEM = 1002 and leaks B in all three wrappers. -/
theorem c2_witness :
    retOf (svd_l_Rdd 2 3 2 2 2 3 3 { allocOk := fun i => i == 0, ans := 1, res1 := 0, res2 := 0 }) = MEM ∧
    freesOf (svd_l_Rdd 2 3 2 2 2 3 3 { allocOk := fun i => i == 0, ans := 1, res1 := 0, res2 := 0 }) = [] ∧
    allocedPtrs (svd_l_Rdd 2 3 2 2 2 3 3 { allocOk := fun i => i == 0, ans := 1, res1 := 0, res2 := 0 }) = [Ptr.B] ∧
    retOf (svd_l_R 2 3 2 2 2 3 3 { allocOk := fun i => i == 0, ans := 1, res1 := 0, res2 := 0 }) = MEM ∧
    freesOf (svd_l_R 2 3 2 2 2 3 3 { allocOk := fun i => i == 0, ans := 1, res1 := 0, res2 := 0 }) = [] ∧
    allocedPtrs (svd_l_R 2 3 2 2 2 3 3 { allocOk := fun i => i == 0, ans := 1, res1 := 0, res2 := 0 }) = [Ptr.B] ∧
    retOf (svd_l_C 2 3 2 2 2 3 3 { allocOk := fun i => i == 0, ans := 1, res1 := 0, res2 := 0 }) = MEM ∧
    freesOf (svd_l_C 2 3 2 2 2 3 3 { allocOk := fun i => i == 0, ans := 1, res1 := 0, res2 := 0 }) = [] ∧
    allocedPtrs (svd_l_C 2 3 2 2 2 3 3 { allocOk := fun i => i == 0, ans := 1, res1 := 0, res2 := 0 }) = [Ptr.B] :=
  (c2_amended_oom_returns_without_free 2 3 2 2 2 3 3
    { allocOk := fun i => i == 0, ans := 1, res1 := 0, res2 := 0 }
    (by decide)).1 rfl rfl

/-- C4 is false as stated: a second-call kernel status of 1000 is returned
verbatim by svd_l_Rdd on an invocation whose dimensions are valid, and 1000
is exactly the size-mismatch code BAD_SIZE, so that kernel-reported failure
is not distinguishable from a size mismatch by the return value alone. -/
theorem c4_counterexample :
    retOf (svd_l_Rdd 2 3 2 2 2 3 3 { allocOk := fun _ => true, ans := 1, res1 := 0, res2 := 1000 }) = BAD_SIZE ∧
    validDims 2 3 2 2 2 3 3 ∧ (1000 : Int) ≠ 0 := by
  refine ⟨by decide, by decide, by decide⟩

/-- C4 amended: the return value classifies the outcome — BAD_SIZE = 1000 on
a dimension mismatch, MEM = 1002 on an allocation failure, the kernel's
status verbatim on a nonzero second-call status, 0 on success — so the
classes are distinguishable provided the kernel status is not itself one of
the reserved codes 1000 and 1002. -/
theorem c4_amended_return_code_classes (ar ac ur uc sn vr vc : Int)
    (e : Env) :
    (¬ validDims ar ac ur uc sn vr vc →
      retOf (svd_l_Rdd ar ac ur uc sn vr vc e) = BAD_SIZE ∧
      retOf (svd_l_R ar ac ur uc sn vr vc e) = BAD_SIZE ∧
      retOf (svd_l_C ar ac ur uc sn vr vc e) = BAD_SIZE) ∧
    (validDims ar ac ur uc sn vr vc → allocsSucceed e → e.res2 = 0 →
      retOf (svd_l_Rdd ar ac ur uc sn vr vc e) = 0 ∧
      retOf (svd_l_R ar ac ur uc sn vr vc e) = 0 ∧
      retOf (svd_l_C ar ac ur uc sn vr vc e) = 0) ∧
    (validDims ar ac ur uc sn vr vc → allocsSucceed e → e.res2 ≠ 0 →
      retOf (svd_l_Rdd ar ac ur uc sn vr vc e) = e.res2 ∧
      retOf (svd_l_R ar ac ur uc sn vr vc e) = e.res2 ∧
      retOf (svd_l_C ar ac ur uc sn vr vc e) = e.res2 ∧
      retOf (svd_l_Rdd ar ac ur uc sn vr vc e) ≠ 0 ∧
      (e.res2 ≠ BAD_SIZE → retOf (svd_l_Rdd ar ac ur uc sn vr vc e) ≠ BAD_SIZE) ∧
      (e.res2 ≠ MEM → retOf (svd_l_Rdd ar ac ur uc sn vr vc e) ≠ MEM)) ∧
    (validDims ar ac ur uc sn vr vc →
      (e.allocOk 0 = false →
        retOf (svd_l_Rdd ar ac ur uc sn vr vc e) = MEM ∧
        retOf (svd_l_R ar ac ur uc sn vr vc e) = MEM ∧
        retOf (svd_l_C ar ac ur uc sn vr vc e) = MEM) ∧
      (e.allocOk 0 = true → e.allocOk 1 = false →
        retOf (svd_l_Rdd ar ac ur uc sn vr vc e) = MEM ∧
        retOf (svd_l_R ar ac ur uc sn vr vc e) = MEM ∧
        retOf (svd_l_C ar ac ur uc sn vr vc e) = MEM) ∧
      (e.allocOk 0 = true → e.allocOk 1 = true → e.allocOk 2 = false →
        retOf (svd_l_Rdd ar ac ur uc sn vr vc e) = MEM ∧
        retOf (svd_l_C ar ac ur uc sn vr vc e) = MEM) ∧
      MEM ≠ 0 ∧ MEM ≠ BAD_SIZE) := by
  refine ⟨?_, ?_, ?_, ?_⟩
  · intro h
    simp only [validDims] at h
    simp [svd_l_Rdd, svd_l_R, svd_l_C, h, retOf]
  · intro h ha hr
    obtain ⟨h1, h2, h3, h4, h5⟩ := h
    subst h1; subst h2; subst h3; subst h4; subst h5
    simp [svd_l_Rdd, svd_l_R, svd_l_C, ha 0, ha 1, ha 2, hr, retOf]
  · intro h ha hr
    obtain ⟨h1, h2, h3, h4, h5⟩ := h
    subst h1; subst h2; subst h3; subst h4; subst h5
    simp [svd_l_Rdd, svd_l_R, svd_l_C, ha 0, ha 1, ha 2, hr, retOf]
  · intro h
    obtain ⟨h1, h2, h3, h4, h5⟩ := h
    subst h1; subst h2; subst h3; subst h4; subst h5
    refine ⟨?_, ?_, ?_, by decide, by decide⟩
    · intro ha0
      simp [svd_l_Rdd, svd_l_R, svd_l_C, ha0, retOf]
    · intro ha0 ha1
      simp [svd_l_Rdd, svd_l_R, svd_l_C, ha0, ha1, retOf]
    · intro ha0 ha1 ha2
      simp [svd_l_Rdd, svd_l_R, svd_l_C, ha0, ha1, ha2, retOf]

/-- Witness for the amended C4: a kernel status of 3 is surfaced verbatim by
a 2 by 3 call and differs from 0, 1000 and 1002, while failing the second
malloc of the same call returns MEM = 1002 in all three wrappers. -/
theorem c4_witness :
    (retOf (svd_l_Rdd 2 3 2 2 2 3 3 { allocOk := fun _ => true, ans := 1, res1 := 0, res2 := 3 }) = 3 ∧
     retOf (svd_l_R 2 3 2 2 2 3 3 { allocOk := fun _ => true, ans := 1, res1 := 0, res2 := 3 }) = 3 ∧
     retOf (svd_l_C 2 3 2 2 2 3 3 { allocOk := fun _ => true, ans := 1, res1 := 0, res2 := 3 }) = 3 ∧
     retOf (svd_l_Rdd 2 3 2 2 2 3 3 { allocOk := fun _ => true, ans := 1, res1 := 0, res2 := 3 }) ≠ 0 ∧
     ((3 : Int) ≠ BAD_SIZE → retOf (svd_l_Rdd 2 3 2 2 2 3 3 { allocOk := fun _ => true, ans := 1, res1 := 0, res2 := 3 }) ≠ BAD_SIZE) ∧
     ((3 : Int) ≠ MEM → retOf (svd_l_Rdd 2 3 2 2 2 3 3 { allocOk := fun _ => true, ans := 1, res1 := 0, res2 := 3 }) ≠ MEM)) ∧
    (retOf (svd_l_Rdd 2 3 2 2 2 3 3 { allocOk := fun i => i == 0, ans := 1, res1 := 0, res2 := 0 }) = MEM ∧
     retOf (svd_l_R 2 3 2 2 2 3 3 { allocOk := fun i => i == 0, ans := 1, res1 := 0, res2 := 0 }) = MEM ∧
     retOf (svd_l_C 2 3 2 2 2 3 3 { allocOk := fun i => i == 0, ans := 1, res1 := 0, res2 := 0 }) = MEM) ∧
    MEM ≠ 0 ∧ MEM ≠ BAD_SIZE :=
  ⟨(c4_amended_return_code_classes 2 3 2 2 2 3 3
      { allocOk := fun _ => true, ans := 1, res1 := 0, res2 := 3 }).2.2.1
      (by decide) (fun i => rfl) (by decide),
   ((c4_amended_return_code_classes 2 3 2 2 2 3 3
      { allocOk := fun i => i == 0, ans := 1, res1 := 0, res2 := 0 }).2.2.2
      (by decide)).2.1 rfl rfl,
   ((c4_amended_return_code_classes 2 3 2 2 2 3 3
      { allocOk := fun i => i == 0, ans := 1, res1 := 0, res2 := 0 }).2.2.2
      (by decide)).2.2.2⟩
